import Mathlib

/-!
Shallow embedding of the comic indexing and storage engine of the rubus
repository (src/rubus/comics.py, with the sibling helpers of
src/rubus/helper.py), together with theorems settling the specification
claims about it.

The SQLite tables are embedded as Lean lists of row structures, in insertion
order; SQL statements become pure functions on those lists.  Calendar dates
are stored by the program as strings rendered with strftime "%Y-%m-%d", whose
textual ordering and equality agree with the lexicographic ordering on
(year, month, day) triples for the four-digit years the program handles, so
the embedding stores the triple directly.  A Python exception is embedded as
the error case of Except.
-/

namespace Rubus

/-- A calendar date as stored in the date column (rendered "%Y-%m-%d"). -/
structure Date where
  year : Nat
  month : Nat
  day : Nat
deriving DecidableEq

/-- Ordering of stored dates: lexicographic on (year, month, day), which is
the textual ordering SQLite applies to the "%Y-%m-%d" strings. -/
def dateLe (a b : Date) : Prop :=
  a.year < b.year ∨
    (a.year = b.year ∧
      (a.month < b.month ∨ (a.month = b.month ∧ a.day ≤ b.day)))

instance decDateLe : DecidableRel dateLe := fun a b =>
  decidable_of_iff
    (a.year < b.year ∨
      (a.year = b.year ∧
        (a.month < b.month ∨ (a.month = b.month ∧ a.day ≤ b.day))))
    Iff.rfl

/-- A row of the images table:
CREATE TABLE IF NOT EXISTS images (name TEXT, date DATE, filepath TEXT NOT
NULL, file_id TEXT) — note the schema declares no UNIQUE constraint. -/
structure ImageRow where
  name : String
  date : Date
  filepath : String
  fileId : Option String
deriving DecidableEq

/-- INSERT INTO images (name, date, filepath) values (?, ?, ?): the schema has
no uniqueness constraint, so the insert appends unconditionally. -/
def insertImage (tbl : List ImageRow) (r : ImageRow) : List ImageRow :=
  tbl ++ [r]

/-- Number of rows of the images table holding a given (name, date) pair. -/
def countPair (tbl : List ImageRow) (n : String) (d : Date) : Nat :=
  (tbl.filter fun row => row.name == n && row.date == d).length

/-- The rows of the images table for one source:
SELECT ... FROM images WHERE name = ?. -/
def entriesFor (tbl : List ImageRow) (name : String) : List ImageRow :=
  tbl.filter fun r => r.name == name

/-- ORDER BY date DESC orders rows so that later dates come first. -/
def byDateDesc (a b : ImageRow) : Prop := dateLe b.date a.date

instance decByDateDesc : DecidableRel byDateDesc := fun a b =>
  decDateLe b.date a.date

/-- SELECT date FROM images WHERE name = ? ORDER BY date DESC, then fetchone:
the date of the first row of the descending ordering, if any
(comics.py, _update_index_of_comic, lines 201-205).  Computed from the rows
at lookup time. -/
def latestDate (tbl : List ImageRow) (name : String) : Option Date :=
  (List.insertionSort byDateDesc (entriesFor tbl name)).head?.map ImageRow.date

/-- SELECT date, filepath, file_id FROM images WHERE name = ? ORDER BY date
DESC LIMIT 1, then fetchone (comics.py, post_comic_of_the_day). -/
def latestRow (tbl : List ImageRow) (name : String) : Option ImageRow :=
  (List.insertionSort byDateDesc (entriesFor tbl name)).head?

/-- A remote comic page as the crawl sees it after download_comic: its parsed
publication date and the local path its image was saved to.  The page list
stands for the sequence the generator _fetch_comic_url_all yields, newest
first, ending when no "previous" link exists. -/
structure Page where
  date : Date
  filepath : String
deriving DecidableEq

/-- A source row: SELECT name, url FROM sources. -/
structure Comic where
  name : String
  url : String
deriving DecidableEq

/-- The row the crawl inserts for a downloaded page (file_id starts NULL). -/
def toRow (name : String) (p : Page) : ImageRow :=
  ⟨name, p.date, p.filepath, none⟩

/-- Outcome of one crawl pass over a source: the resulting images table and
how many pages were downloaded.  Each download_comic call fetches the page
and downloads its image, so downloads counts image downloads as well. -/
structure CrawlResult where
  table : List ImageRow
  downloads : Nat
deriving DecidableEq

/-- The crawl loop of _update_index_of_comic (comics.py lines 211-222):
for each page, download_comic runs first (counting one page fetch and one
image download), then the page date is compared against the stored latest
date; on a match the loop breaks without inserting, otherwise the row is
inserted and the crawl follows the previous link. -/
def updateComicLoop (name : String) (latest : Option Date) :
    List Page → List ImageRow → CrawlResult
  | [], tbl => ⟨tbl, 0⟩
  | p :: ps, tbl =>
    if some p.date = latest then
      ⟨tbl, 1⟩
    else
      let r := updateComicLoop name latest ps (insertImage tbl (toRow name p))
      ⟨r.table, r.downloads + 1⟩

/-- _update_index_of_comic (comics.py lines 198-224): look up the stored
latest date once, then run the crawl loop over the remote page history. -/
def updateIndexOfComic (comic : Comic) (pages : List Page)
    (tbl : List ImageRow) : CrawlResult :=
  updateComicLoop comic.name (latestDate tbl comic.name) pages tbl

/-- Exceptions of the Python runtime that the embedded code can raise. -/
inductive PyError
  | typeError
  | indexError
  | integrityError
  | operationalError
  | interfaceError
  | valueError
deriving DecidableEq

/-- The refresh loop of update_index (comics.py lines 253-254): the body has
no try/except, so an exception raised while processing one source propagates
and the remaining sources are not reached.  The per-source work is abstracted
as step (its network and storage effects can fail). -/
def updateIndex (step : Comic → List ImageRow → Except PyError (List ImageRow)) :
    List Comic → List ImageRow → Except PyError (List ImageRow)
  | [], tbl => .ok tbl
  | c :: cs, tbl =>
    match step c tbl with
    | .error e => .error e
    | .ok tbl2 => updateIndex step cs tbl2

/-- A step function used as a concrete scenario: processing source "A" raises
a storage error, processing any other source appends one row. -/
def stepFailA : Comic → List ImageRow → Except PyError (List ImageRow) :=
  fun c tbl =>
    if c.name = "A" then .error .operationalError
    else .ok (insertImage tbl ⟨c.name, ⟨2024, 1, 5⟩, "/data/x.jpg", none⟩)

/-- A row of the daily_posts table:
CREATE TABLE IF NOT EXISTS daily_posts (chat_id INTEGER, name TEXT,
UNIQUE(chat_id, name)). -/
abbrev SubRow := Int × String

/-- scheduling_enable (comics.py lines 382-386): a plain
INSERT INTO daily_posts values (?, ?).  The UNIQUE(chat_id, name) constraint
makes the insert raise sqlite3.IntegrityError when the pair is already
present; otherwise the row is appended. -/
def scheduling_enable (tbl : List SubRow) (chat : Int) (name : String) :
    Except PyError (List SubRow) :=
  if (chat, name) ∈ tbl then .error .integrityError
  else .ok (tbl ++ [(chat, name)])

/-- scheduling_disable (comics.py lines 389-393):
DELETE FROM daily_posts WHERE chat_id = ? AND name = ?. -/
def scheduling_disable (tbl : List SubRow) (chat : Int) (name : String) :
    List SubRow :=
  tbl.filter fun p => !(p.1 == chat && p.2 == name)

/-- ORDER BY RANDOM() LIMIT 1 with fetchone: some row of the filtered set
when it is nonempty, selected here by an arbitrary seed k; none when the
source has no rows. -/
def fetchRandomRow (rows : List ImageRow) (k : Nat) : Option ImageRow :=
  rows.get? (k % rows.length)

/-- random_post (comics.py lines 315-333): the fetchone result is unpacked
as "date, filepath, file_id = ...fetchone()" with no None check, so an empty
source raises TypeError (unpacking None). -/
def random_post (tbl : List ImageRow) (name : String) (k : Nat) :
    Except PyError (Date × String × Option String) :=
  match fetchRandomRow (entriesFor tbl name) k with
  | none => .error .typeError
  | some r => .ok (r.date, r.filepath, r.fileId)

/-- A value bound as an SQL query parameter.  sqlite3 supports scalar values
such as strings; binding anything else — a row tuple included — makes execute
raise sqlite3.InterfaceError (unsupported parameter type) before the query
runs. -/
inductive SqlParam
  | str : String → SqlParam
  | tuple : List String → SqlParam
deriving DecidableEq

/-- The per-source body of post_comic_of_the_day (comics.py lines 269-277).
The loop iterates "for name in comics" over the fetchall rows of
SELECT name FROM sources, so each name is a one-element row tuple, and the
body binds it as the parameter of SELECT date, filepath, file_id FROM images
WHERE name = ? ORDER BY date DESC LIMIT 1.  sqlite3 validates the bound
parameter first: a row tuple is an unsupported type and execute raises
sqlite3.InterfaceError, so fetchone is never reached.  With a string
parameter — which this loop never passes — the fetchone result would be
tuple-unpacked with no None check (TypeError on an empty source), and a
latest date differing from today would be skipped via continue (ok false). -/
def post_comic_of_the_day_step (tbl : List ImageRow) (name : SqlParam)
    (today : Date) : Except PyError Bool :=
  match name with
  | .tuple _ => .error .interfaceError
  | .str n =>
    match latestRow tbl n with
    | none => .error .typeError
    | some r => if r.date = today then .ok true else .ok false

/-- The loop of post_comic_of_the_day over the fetched source rows: the body
has no exception handler, so an error raised for one source row ends the
whole pass. -/
def post_comic_of_the_day_loop (tbl : List ImageRow) (today : Date) :
    List SqlParam → Except PyError Unit
  | [] => .ok ()
  | name :: rest =>
    match post_comic_of_the_day_step tbl name today with
    | .error e => .error e
    | .ok _ => post_comic_of_the_day_loop tbl today rest

/-- post_comic_of_the_day (comics.py lines 261-296): comics is the fetchall
of SELECT name FROM sources — a list of one-element row tuples — and the loop
binds each whole row tuple as the inner query's parameter. -/
def post_comic_of_the_day (tbl : List ImageRow) (sources : List Comic)
    (today : Date) : Except PyError Unit :=
  post_comic_of_the_day_loop tbl today
    (sources.map fun c => SqlParam.tuple [c.name])

/-- Result of a single-row query helper: no row, one bare element, or a row. -/
inductive QVal (α : Type)
  | noRow : QVal α
  | single : α → QVal α
  | row : List α → QVal α
deriving DecidableEq

/-- database_query_single of comics.py (lines 73-88): the guard is
"if rows is None", which is False for every actual list database_query
returns — the empty list included — so rows[0] raises IndexError on an empty
result; a one-element row is unwrapped to its bare element. -/
def comics_database_query_single {α : Type} :
    List (List α) → Except PyError (QVal α)
  | [] => .error .indexError
  | (v :: []) :: _ => .ok (.single v)
  | r :: _ => .ok (.row r)

/-- database_query_single of helper.py (lines 98-113): the guard is
"if not rows", so an empty result returns None; a one-element row is
unwrapped to its bare element. -/
def helper_database_query_single {α : Type} :
    List (List α) → Except PyError (QVal α)
  | [] => .ok .noRow
  | (v :: []) :: _ => .ok (.single v)
  | r :: _ => .ok (.row r)

/-- Python's Gregorian leap-year rule (datetime). -/
def isLeap (y : Nat) : Bool :=
  y % 4 == 0 && (y % 100 != 0 || y % 400 == 0)

/-- Length of a month as datetime validates it. -/
def daysInMonth (y m : Nat) : Nat :=
  if m = 2 then (if isLeap y then 29 else 28)
  else if m = 4 ∨ m = 6 ∨ m = 9 ∨ m = 11 then 30
  else 31

/-- Validity of a (year, month, day) triple as a datetime.date: datetime
accepts years 1..9999 and days within the month. -/
def validDate (y m d : Nat) : Bool :=
  decide (1 ≤ y) && decide (y ≤ 9999) && decide (1 ≤ m) &&
    decide (m ≤ 12) && decide (1 ≤ d) && decide (d ≤ daysInMonth y m)

/-- Leading run of decimal digits of a character list, with the rest. -/
def takeDigits : List Char → List Char × List Char
  | [] => ([], [])
  | c :: cs =>
    if c.isDigit then
      let (ds, rest) := takeDigits cs
      (c :: ds, rest)
    else ([], c :: cs)

/-- Numeric value of a run of decimal digits. -/
def digitsToNat (ds : List Char) : Nat :=
  ds.foldl (fun n c => 10 * n + (c.toNat - 48)) 0

/-- One numeric strptime field of at most two digits (the %d and %m patterns
match one or two digits whose value lies in the field's range; a longer digit
run cannot match because the following literal dot would not be found). -/
def parseField2 (lo hi : Nat) (cs : List Char) : Option (Nat × List Char) :=
  let (ds, rest) := takeDigits cs
  if ds.length = 0 ∨ 2 < ds.length then none
  else
    let v := digitsToNat ds
    if lo ≤ v ∧ v ≤ hi then some (v, rest) else none

/-- The literal dot of the format strings. -/
def expectDot : List Char → Option (List Char)
  | '.' :: cs => some cs
  | _ => none

/-- datetime.strptime(date_text, "%d.%m.%Y").date(): day 1..31, dot, month
1..12, dot, exactly four year digits, end of text, then the datetime
constructor validates the triple.  none embeds ValueError. -/
def strptimeDMY (s : String) : Option Date :=
  match parseField2 1 31 s.data with
  | none => none
  | some (d, r1) =>
    match expectDot r1 with
    | none => none
    | some r2 =>
      match parseField2 1 12 r2 with
      | none => none
      | some (m, r3) =>
        match expectDot r3 with
        | none => none
        | some r4 =>
          let (ys, r5) := takeDigits r4
          if ys.length = 4 ∧ r5 = [] then
            let y := digitsToNat ys
            if validDate y m d then some ⟨y, m, d⟩ else none
          else none

/-- datetime.strptime(date_text, "%d.%m.").date(): as above but with no year
field, so the datetime constructor validates the triple against strptime's
default year 1900 — which is not a leap year. -/
def strptimeDM (s : String) : Option Date :=
  match parseField2 1 31 s.data with
  | none => none
  | some (d, r1) =>
    match expectDot r1 with
    | none => none
    | some r2 =>
      match parseField2 1 12 r2 with
      | none => none
      | some (m, r3) =>
        match expectDot r3 with
        | none => none
        | some r4 =>
          if r4 = [] then
            if validDate 1900 m d then some ⟨1900, m, d⟩ else none
          else none

/-- date.replace(year=today.year): datetime validates the adjusted date and
raises ValueError when it does not exist in the new year. -/
def replaceYear (dt : Date) (y : Nat) : Option Date :=
  if validDate y dt.month dt.day then some ⟨y, dt.month, dt.day⟩ else none

/-- The date normalization of download_comic (comics.py lines 157-165): try
"%d.%m.%Y"; on ValueError fall back to "%d.%m." and replace the year with the
current year.  A ValueError escaping the fallback propagates (none). -/
def parseComicDate (dateText : String) (todayYear : Nat) : Option Date :=
  match strptimeDMY dateText with
  | some d => some d
  | none =>
    match strptimeDM dateText with
    | none => none
    | some d => replaceYear d todayYear

/-- A one-row images table used by concrete scenarios. -/
def dupRow : ImageRow := ⟨"Fok It", ⟨2024, 1, 5⟩, "/data/0105.jpg", none⟩

/-- A two-row images table used by concrete scenarios. -/
def tblW : List ImageRow :=
  [⟨"Fok It", ⟨2024, 1, 3⟩, "/data/0103.jpg", none⟩,
   ⟨"Fok It", ⟨2024, 1, 5⟩, "/data/0105.jpg", none⟩]

/-- Two not-yet-indexed pages, newest first, used by concrete scenarios. -/
def freshW : List Page :=
  [⟨⟨2024, 1, 5⟩, "/data/0105.jpg"⟩, ⟨⟨2024, 1, 4⟩, "/data/0104.jpg"⟩]

/-- An indexed row of 2024-01-03 used by concrete scenarios. -/
def dupRow03 : ImageRow := ⟨"Fok It", ⟨2024, 1, 3⟩, "/data/0103.jpg", none⟩

theorem dateLe_refl (a : Date) : dateLe a a := by
  unfold dateLe; omega

theorem dateLe_total (a b : Date) : dateLe a b ∨ dateLe b a := by
  unfold dateLe; omega

theorem dateLe_trans {a b c : Date} (h1 : dateLe a b) (h2 : dateLe b c) :
    dateLe a c := by
  unfold dateLe at h1 h2 ⊢; omega

instance : IsTotal ImageRow byDateDesc :=
  ⟨fun a b => (dateLe_total b.date a.date).imp id id⟩

instance : IsTrans ImageRow byDateDesc :=
  ⟨fun _ _ _ hab hbc => dateLe_trans hbc hab⟩

theorem latestDate_none_iff (tbl : List ImageRow) (name : String) :
    latestDate tbl name = none ↔ entriesFor tbl name = [] := by
  unfold latestDate
  have hp := List.perm_insertionSort byDateDesc (entriesFor tbl name)
  constructor
  · intro h
    rcases hs : List.insertionSort byDateDesc (entriesFor tbl name) with _ | ⟨x, xs⟩
    · rw [hs] at hp
      exact hp.symm.eq_nil
    · rw [hs] at h
      simp at h
  · intro h
    rw [h]
    rfl

theorem latestDate_spec (tbl : List ImageRow) (name : String) (d : Date)
    (h : latestDate tbl name = some d) :
    d ∈ (entriesFor tbl name).map ImageRow.date ∧
      ∀ e ∈ entriesFor tbl name, dateLe e.date d := by
  unfold latestDate at h
  have hp := List.perm_insertionSort byDateDesc (entriesFor tbl name)
  have hsor := List.sorted_insertionSort byDateDesc (entriesFor tbl name)
  rcases hs : List.insertionSort byDateDesc (entriesFor tbl name) with _ | ⟨x, xs⟩ <;>
    rw [hs] at h hp hsor
  · simp at h
  · simp only [List.head?_cons, Option.map_some', Option.some.injEq] at h
    constructor
    · rw [← h]
      exact List.mem_map_of_mem ImageRow.date (hp.mem_iff.mp (List.mem_cons_self x xs))
    · intro e he
      have hex : e ∈ x :: xs := hp.symm.mem_iff.mp he
      rcases List.mem_cons.mp hex with rfl | hmem
      · rw [← h]
        exact dateLe_refl _
      · rw [← h]
        exact List.rel_of_sorted_cons hsor e hmem

/-- C8: for every source, the latest-entry-date lookup returns the maximum
date among that source's stored entries (it is the date of some stored entry
and no stored entry has a later date), and returns none exactly when the
source has no entries; the value is computed from the rows given at lookup
time. -/
theorem latest_entry_date_correct (tbl : List ImageRow) (name : String) :
    (latestDate tbl name = none ↔ entriesFor tbl name = []) ∧
      ∀ d, latestDate tbl name = some d →
        d ∈ (entriesFor tbl name).map ImageRow.date ∧
          ∀ e ∈ entriesFor tbl name, dateLe e.date d :=
  ⟨latestDate_none_iff tbl name, fun d h => latestDate_spec tbl name d h⟩

/-- Witness for C8: on a concrete two-row table the lookup yields 2024-01-05,
which is the date of a stored entry and an upper bound of all of them. -/
theorem latest_entry_date_correct_witness :
    (⟨2024, 1, 5⟩ : Date) ∈ (entriesFor tblW "Fok It").map ImageRow.date ∧
      ∀ e ∈ entriesFor tblW "Fok It", dateLe e.date ⟨2024, 1, 5⟩ :=
  (latest_entry_date_correct tblW "Fok It").2 ⟨2024, 1, 5⟩ (by decide)

theorem updateComicLoop_spec (name : String) (latest : Option Date)
    (fresh : List Page) (q : Page) (rest : List Page) (tbl : List ImageRow)
    (hfresh : ∀ p ∈ fresh, some p.date ≠ latest)
    (hq : some q.date = latest) :
    updateComicLoop name latest (fresh ++ q :: rest) tbl =
      ⟨tbl ++ fresh.map (toRow name), fresh.length + 1⟩ := by
  induction fresh generalizing tbl with
  | nil =>
    simp [updateComicLoop, hq]
  | cons p ps ih =>
    have hne : some p.date ≠ latest := hfresh p (List.mem_cons_self p ps)
    simp only [List.cons_append, updateComicLoop, if_neg hne]
    simp only [List.append_eq]
    rw [ih (insertImage tbl (toRow name p))
      (fun x hx => hfresh x (List.mem_cons_of_mem p hx))]
    simp [insertImage, List.append_assoc]

/-- C2: for a source whose remote history is N not-yet-indexed pages (newest
first) followed by pages already indexed, the first of which carries the
stored latest entry date, one crawl pass appends exactly the N new rows and
downloads exactly N + 1 pages: it stops at the first page whose date equals
the stored latest date, writing nothing for it and fetching nothing beyond
it. -/
theorem crawl_termination (comic : Comic) (tbl : List ImageRow)
    (fresh : List Page) (q : Page) (rest : List Page)
    (hfresh : ∀ p ∈ fresh, p.date ∉ (entriesFor tbl comic.name).map ImageRow.date)
    (hq : latestDate tbl comic.name = some q.date) :
    updateIndexOfComic comic (fresh ++ q :: rest) tbl =
      ⟨tbl ++ fresh.map (toRow comic.name), fresh.length + 1⟩ := by
  have hmem := (latestDate_spec tbl comic.name q.date hq).1
  unfold updateIndexOfComic
  rw [hq]
  refine updateComicLoop_spec comic.name (some q.date) fresh q rest tbl ?_ rfl
  intro p hp hsome
  exact hfresh p hp (Option.some.inj hsome ▸ hmem)

/-- Witness for C2: with one indexed entry of 2024-01-03 and two fresh pages,
the crawl appends the two fresh rows and downloads three pages. -/
theorem crawl_termination_witness :
    updateIndexOfComic ⟨"Fok It", "https://hs.fi/sarjakuvat/"⟩
        (freshW ++ ⟨⟨2024, 1, 3⟩, "/data/0103.jpg"⟩ :: []) [dupRow03] =
      ⟨[dupRow03] ++ freshW.map (toRow "Fok It"), freshW.length + 1⟩ :=
  crawl_termination ⟨"Fok It", "https://hs.fi/sarjakuvat/"⟩ [dupRow03] freshW
    ⟨⟨2024, 1, 3⟩, "/data/0103.jpg"⟩ [] (by decide) (by decide)

/-- Counterexample to C1: the images table carries no uniqueness constraint,
so two append attempts for the same (source_name, date) pair leave two rows
for that pair, violating at-most-one. -/
theorem images_duplicate_rows_counterexample :
    ¬ countPair (insertImage (insertImage [] dupRow) dupRow)
        "Fok It" ⟨2024, 1, 5⟩ ≤ 1 := by decide

/-- C1 as amended: the images table declares no uniqueness constraint on
(source_name, date) — every insert appends one more row for its pair
unconditionally, so repeated append attempts for the same pair do create
duplicate rows; at most one entry per pair holds only as a convention kept by
the crawl's stop-at-latest-date check, not as a storage constraint. -/
theorem images_insert_appends (tbl : List ImageRow) (r : ImageRow) :
    countPair (insertImage tbl r) r.name r.date =
      countPair tbl r.name r.date + 1 := by
  unfold countPair insertImage
  rw [List.filter_append]
  simp

/-- Witness for C1 (amended): a concrete append grows its pair's count. -/
theorem images_insert_appends_witness :
    countPair (insertImage [dupRow] dupRow) "Fok It" ⟨2024, 1, 5⟩ =
      countPair [dupRow] "Fok It" ⟨2024, 1, 5⟩ + 1 :=
  images_insert_appends [dupRow] dupRow

/-- Counterexample to C3: on a source that is already fully indexed (the
latest remote page's date equals the stored latest entry date) a refresh pass
appends no row, but it performs one page fetch and image download — the
latest page's image is downloaded again before its date is compared. -/
theorem refresh_redownloads_counterexample :
    (updateIndexOfComic ⟨"Fok It", "https://hs.fi/sarjakuvat/"⟩
        [⟨⟨2024, 1, 5⟩, "/data/0105.jpg"⟩] [dupRow]).table = [dupRow] ∧
      (updateIndexOfComic ⟨"Fok It", "https://hs.fi/sarjakuvat/"⟩
        [⟨⟨2024, 1, 5⟩, "/data/0105.jpg"⟩] [dupRow]).downloads ≠ 0 := by decide

/-- C3 as amended: for a source that is already fully indexed, a refresh pass
appends zero new rows, but it downloads exactly one page — the latest remote
page, whose image download happens inside download_comic before the date
comparison stops the crawl; no page beyond it is fetched. -/
theorem refresh_noop_one_download (comic : Comic) (tbl : List ImageRow)
    (q : Page) (rest : List Page)
    (hq : latestDate tbl comic.name = some q.date) :
    updateIndexOfComic comic (q :: rest) tbl = ⟨tbl, 1⟩ := by
  unfold updateIndexOfComic
  rw [hq]
  simp [updateComicLoop]

/-- Witness for C3 (amended): concrete fully-indexed source, one download. -/
theorem refresh_noop_one_download_witness :
    updateIndexOfComic ⟨"Fok It", "https://hs.fi/sarjakuvat/"⟩
        [⟨⟨2024, 1, 5⟩, "/data/0105b.jpg"⟩] tblW = ⟨tblW, 1⟩ :=
  refresh_noop_one_download ⟨"Fok It", "https://hs.fi/sarjakuvat/"⟩ tblW
    ⟨⟨2024, 1, 5⟩, "/data/0105b.jpg"⟩ [] (by decide)

/-- Counterexample to C5: with a step that raises a storage error on source
"A" and succeeds on any other source, the refresh pass over ["A", "B"] ends
in that error — the failure is not caught and the loop does not continue with
source "B". -/
theorem update_index_abort_counterexample :
    updateIndex stepFailA [⟨"A", "url-a"⟩, ⟨"B", "url-b"⟩] [] =
      .error .operationalError := rfl

/-- C5 as amended: update_index wraps the per-source work in no handler, so a
failure raised while processing one source propagates out of the refresh pass
immediately and the sources after the failing one are not processed. -/
theorem update_index_aborts_on_failure
    (step : Comic → List ImageRow → Except PyError (List ImageRow))
    (c : Comic) (cs : List Comic) (tbl : List ImageRow) (e : PyError)
    (h : step c tbl = .error e) :
    updateIndex step (c :: cs) tbl = .error e := by
  simp [updateIndex, h]

/-- Witness for C5 (amended): the concrete failing step aborts the pass. -/
theorem update_index_aborts_on_failure_witness :
    updateIndex stepFailA [⟨"A", "url-a"⟩, ⟨"C", "url-c"⟩] [] =
      .error .operationalError :=
  update_index_aborts_on_failure stepFailA ⟨"A", "url-a"⟩ [⟨"C", "url-c"⟩]
    [] .operationalError rfl

/-- Counterexample to C6: subscribing a pair that is already subscribed is
not a no-op — the plain INSERT hits UNIQUE(chat_id, name) and raises
sqlite3.IntegrityError. -/
theorem subscribe_twice_counterexample :
    scheduling_enable [((7 : Int), "Fok It")] 7 "Fok It" =
      .error .integrityError := by
  simp [scheduling_enable]

/-- C6 as amended: subscribe on an already-subscribed pair fails with a
uniqueness-constraint error — the table is left as it was, so exactly the one
existing row remains — while unsubscribe on an absent pair is a no-op that
returns the table unchanged. -/
theorem subscription_toggle (tbl : List SubRow) (chat : Int) (name : String) :
    ((chat, name) ∈ tbl →
        scheduling_enable tbl chat name = .error .integrityError) ∧
      ((chat, name) ∉ tbl → scheduling_disable tbl chat name = tbl) := by
  constructor
  · intro h
    simp [scheduling_enable, h]
  · intro h
    unfold scheduling_disable
    rw [List.filter_eq_self]
    intro p hp
    have hne : p ≠ (chat, name) := fun he => h (he ▸ hp)
    simp only [Bool.not_eq_eq_eq_not, Bool.not_true, Bool.and_eq_false_imp,
      beq_iff_eq, beq_eq_false_iff_ne, ne_eq]
    intro h1 h2
    exact hne (Prod.ext h1 h2)

/-- Witness for C6 (amended): concrete duplicate subscribe errors, concrete
absent unsubscribe is the identity. -/
theorem subscription_toggle_witness :
    scheduling_enable [((1 : Int), "Fok It")] 1 "Fok It" =
        .error .integrityError ∧
      scheduling_disable [((1 : Int), "Fok It")] 2 "Fok It" =
        [((1 : Int), "Fok It")] :=
  ⟨(subscription_toggle [((1 : Int), "Fok It")] 1 "Fok It").1 (by decide),
   (subscription_toggle [((1 : Int), "Fok It")] 2 "Fok It").2 (by decide)⟩

/-- C7, evaluated at the failing input: "5.3." with current year 2024 does
normalize to 2024-03-05, but "29.2." with current year 2024 raises — the
fallback strptime validates the day against its default year 1900, which is
not a leap year — even though 2024-02-29 is a valid calendar date.  The
claim's universal statement fails at day 29, month 2. -/
theorem leap_day_parse_bug :
    parseComicDate "5.3." 2024 = some ⟨2024, 3, 5⟩ ∧
      validDate 2024 2 29 = true ∧
      parseComicDate "29.2." 2024 = none := by decide

/-- Counterexample to C9: the random-entry lookup on a source with no stored
entries raises a TypeError (unpacking a None fetchone result) instead of
returning an empty outcome; and on a day with no matching entry — here the
only stored entry is 2024-01-05 and today is 2024-01-06 — the daily-post pass
is a failure, not a normal "nothing to post" outcome: binding the source row
tuple as the parameter makes the inner execute raise InterfaceError. -/
theorem empty_source_raises_counterexample :
    random_post [] "Fok It" 0 = .error .typeError ∧
      post_comic_of_the_day [dupRow] [⟨"Fok It", "https://hs.fi/sarjakuvat/"⟩]
        ⟨2024, 1, 6⟩ = .error .interfaceError :=
  ⟨rfl, rfl⟩

/-- C9 as amended: for a source with no stored entries the random-entry
lookup raises a TypeError (the fetchone result None is tuple-unpacked with no
check) rather than signalling an empty outcome; and the daily-post pass never
reaches a normal "nothing to post" outcome at all — it binds each fetched
source row tuple as the inner query's parameter, so the per-source body
raises InterfaceError for every source row, and a pass over any nonempty
source list ends in that error before any entry is fetched. -/
theorem empty_and_missing_lookup (tbl : List ImageRow) (name : String)
    (k : Nat) (today : Date) (c : Comic) (cs : List Comic) :
    (entriesFor tbl name = [] → random_post tbl name k = .error .typeError) ∧
      (∀ row : List String,
        post_comic_of_the_day_step tbl (.tuple row) today =
          .error .interfaceError) ∧
      post_comic_of_the_day tbl (c :: cs) today = .error .interfaceError := by
  refine ⟨?_, fun row => rfl, rfl⟩
  intro h
  unfold random_post fetchRandomRow
  rw [h]
  rfl

/-- Witness for C9 (amended): a concrete empty source raises TypeError on the
random lookup, and a concrete one-source daily pass ends in InterfaceError
even though the source has stored entries. -/
theorem empty_and_missing_lookup_witness :
    random_post [] "Lassi" 3 = .error .typeError ∧
      post_comic_of_the_day tblW [⟨"Fok It", "https://hs.fi/sarjakuvat/"⟩]
        ⟨2024, 1, 6⟩ = .error .interfaceError :=
  ⟨(empty_and_missing_lookup [] "Lassi" 3 ⟨2024, 1, 6⟩
      ⟨"Fok It", "https://hs.fi/sarjakuvat/"⟩ []).1 rfl,
   (empty_and_missing_lookup tblW "Fok It" 0 ⟨2024, 1, 6⟩
      ⟨"Fok It", "https://hs.fi/sarjakuvat/"⟩ []).2.2⟩

/-- Counterexample to C10: on an empty list of rows the two helpers disagree
— the comics variant guards with "rows is None", which an empty list does not
satisfy, so rows[0] raises IndexError, while the helper variant guards with
"if not rows" and returns None. -/
theorem query_single_counterexample :
    comics_database_query_single ([] : List (List Nat)) = .error .indexError ∧
      helper_database_query_single ([] : List (List Nat)) = .ok .noRow :=
  ⟨rfl, rfl⟩

/-- C10 as amended: the two single-row query helpers agree on every nonempty
list of rows — both unwrap a single-column single row to its bare element —
but on an empty list helper.database_query_single returns None while
comics.database_query_single raises IndexError. -/
theorem query_single_agree_on_nonempty {α : Type} (r : List α)
    (rs : List (List α)) :
    comics_database_query_single (r :: rs) =
        helper_database_query_single (r :: rs) ∧
      (∀ v : α, comics_database_query_single ([v] :: rs) = .ok (.single v)) ∧
      helper_database_query_single ([] : List (List α)) = .ok .noRow ∧
      comics_database_query_single ([] : List (List α)) =
        .error .indexError := by
  refine ⟨?_, fun v => rfl, rfl, rfl⟩
  rcases r with _ | ⟨a, _ | ⟨b, t⟩⟩ <;> rfl

/-- Witness for C10 (amended): concrete agreement on a nonempty result and
concrete unwrapping of a single-column single row. -/
theorem query_single_agree_witness :
    comics_database_query_single [[(3 : Nat), 4]] =
        helper_database_query_single [[(3 : Nat), 4]] ∧
      comics_database_query_single [[(7 : Nat)]] = .ok (.single 7) :=
  ⟨(query_single_agree_on_nonempty [(3 : Nat), 4] []).1,
   (query_single_agree_on_nonempty ([] : List Nat) ([] : List (List Nat))).2.1 7⟩

end Rubus
